import Mathlib

/-!
Verification of `src/driver/safe/external_memory.rs` (cudarc).

The Rust file manages CUDA external memory: `CudaContext::import_external_memory`
builds an `ExternalMemory` from an OS `File`; `ExternalMemory::map_range` /
`map_all` consume it into a `MappedBuffer`; both types have `Drop` impls that
tear the resources down via driver primitives.

Embedding style: the driver primitives (`bind_to_thread`,
`import_external_memory_opaque_fd` / `..._opaque_win32`,
`destroy_external_memory`, `get_mapped_buffer`, `new_event`, `wait`,
`memory_free`) are external collaborators; an `Env` fixes the outcome of each
primitive, and every modelled operation returns its result together with the
list of primitive calls it made, in order.  Machine integers (`u64`, `usize`)
are modelled as `Nat`: on the 64-bit hosts the crate targets, the
`usize as u64` casts in `map_range` and the `u64 as usize` cast in `map_all`
are value-preserving.  Rust panics (the `assert!` calls in `map_range`) are a
distinct `Outcome.panic` result carrying the calls made before the panic.
The compile-time `#[cfg(windows)]` split is a `windows : Bool` parameter.
-/

namespace Cudarc

/-- A driver-level error (`DriverError` wraps a `CUresult` error code). -/
structure DriverError where
  code : Nat
deriving DecidableEq

/-- One call to an external-collaborator primitive, as it appears in a trace.
`dropFile` is the `ManuallyDrop::<File>::drop` call that releases the OS
resource, and `recordErr` is `CudaContext::record_err` pushing a teardown
failure into the context's deferred-error sink. -/
inductive Call where
  | bindToThread
  | importPrim (fd : Nat) (size : Nat)
  | destroyExternalMemory (handle : Nat)
  | getMappedBuffer (handle : Nat) (offset : Nat) (len : Nat)
  | newEvent
  | streamWait (stream : Nat) (event : Nat)
  | memoryFree (ptr : Nat)
  | dropFile
deriving DecidableEq

/-- Outcomes of the fallible collaborator primitives, fixed per run.
Successful results carry the opaque values the driver returns
(`CUexternalMemory`, `CUdeviceptr`, `CudaEvent`, stream identity). -/
structure Env where
  bindToThread : Except DriverError Unit
  importPrim : Except DriverError Nat
  getMappedBuffer : Nat → Nat → Except DriverError Nat
  newEvent : Except DriverError Nat
  defaultStream : Nat
  destroy : Except DriverError Unit
  streamWait : Except DriverError Unit
  memoryFree : Except DriverError Unit

/-- `CudaContext::record_err`: a failed teardown step contributes its error to
the context's deferred-error sink; a successful one contributes nothing. -/
def recordErr : Except DriverError Unit → List DriverError
  | Except.ok _ => []
  | Except.error e => [e]

/-- `pub struct ExternalMemory` — the imported external memory.  `ctx` is the
`Arc<CudaContext>` (modelled by its identity; its behaviour lives in `Env`),
`file` is the `ManuallyDrop<File>` field `_file` (modelled by its raw fd). -/
structure ExternalMemory where
  external_memory : Nat
  size : Nat
  ctx : Nat
  file : Nat
deriving DecidableEq

/-- What a destructor produces: the primitive calls it made, in order, and the
errors it recorded into the context's deferred-error sink, in order.  A
destructor cannot return anything else — in particular it cannot raise. -/
structure TeardownOut where
  trace : List Call
  sink : List DriverError
deriving DecidableEq

/-- `impl Drop for ExternalMemory`: bind to thread (error recorded), destroy
the imported-memory handle (error recorded), then — only under
`#[cfg(windows)]` — drop the `ManuallyDrop<File>`.  On unix the file is never
dropped: the CUDA driver took ownership of the fd at import. -/
def ExternalMemory.drop (windows : Bool) (env : Env) (m : ExternalMemory) :
    TeardownOut where
  trace := [Call.bindToThread, Call.destroyExternalMemory m.external_memory]
    ++ (if windows then [Call.dropFile] else [])
  sink := recordErr env.bindToThread ++ recordErr env.destroy

/-- `CudaContext::import_external_memory`: bind to thread (`?`), run the
platform import primitive on the raw fd/handle (`?`), and only then build the
`ExternalMemory` value, wrapping the file in `ManuallyDrop`. -/
def CudaContext.import_external_memory (env : Env) (ctx : Nat) (file : Nat)
    (size : Nat) : Except DriverError ExternalMemory × List Call :=
  match env.bindToThread with
  | Except.error e => (Except.error e, [Call.bindToThread])
  | Except.ok _ =>
    match env.importPrim with
    | Except.error e =>
        (Except.error e, [Call.bindToThread, Call.importPrim file size])
    | Except.ok h =>
        (Except.ok ⟨h, size, ctx, file⟩,
          [Call.bindToThread, Call.importPrim file size])

/-- Rust's `Range<usize>` (`start..end`); `end` is a Lean keyword, so the
field is named `stop`. -/
structure Range where
  start : Nat
  stop : Nat
deriving DecidableEq

/-- `Range::<usize>::len()` (via `ExactSizeIterator`): `end - start` when
`start < end`, and `0` otherwise — exactly truncated `Nat` subtraction. -/
def Range.len (r : Range) : Nat := r.stop - r.start

/-- `pub struct MappedBuffer` — a mapping of (a range of) the external memory
into the device address space.  It owns the `ExternalMemory` it came from;
`event` is the `CudaEvent` completion marker, `stream` the
`Arc<CudaStream>` (both modelled by identity). -/
structure MappedBuffer where
  device_ptr : Nat
  len : Nat
  external_memory : ExternalMemory
  event : Nat
  stream : Nat
deriving DecidableEq

/-- Result of `ExternalMemory::map_range`: a normal `Result` or an `assert!`
panic. -/
inductive Outcome (α : Type) where
  | ok (a : α)
  | error (e : DriverError)
  | panic
deriving DecidableEq

/-- The `len` of the mapped view a `map_range` outcome produced, if any. -/
def Outcome.lenOf : Outcome MappedBuffer → Option Nat
  | Outcome.ok b => some b.len
  | _ => none

/-- `ExternalMemory::map_range`: `assert!(range.start as u64 <= self.size)`,
`assert!(range.end as u64 <= self.size)`, then `get_mapped_buffer(handle,
range.start, range.len())` (`?`), then `ctx.new_event(None)` (`?`), then build
the `MappedBuffer` on the context's default stream, moving `self` into it.
A panic stops before any primitive call is made (both asserts precede the
first call).  On the `?` error paths Rust drops `self`, so the handle's
teardown trace (`ExternalMemory.drop`) is appended. -/
def ExternalMemory.map_range (windows : Bool) (env : Env) (m : ExternalMemory)
    (range : Range) : Outcome MappedBuffer × List Call :=
  if range.start ≤ m.size then
    if range.stop ≤ m.size then
      match env.getMappedBuffer range.start range.len with
      | Except.error e =>
          (Outcome.error e,
            [Call.getMappedBuffer m.external_memory range.start range.len]
              ++ (m.drop windows env).trace)
      | Except.ok device_ptr =>
        match env.newEvent with
        | Except.error e =>
            (Outcome.error e,
              [Call.getMappedBuffer m.external_memory range.start range.len,
                Call.newEvent] ++ (m.drop windows env).trace)
        | Except.ok event =>
            (Outcome.ok ⟨device_ptr, range.len, m, event, env.defaultStream⟩,
              [Call.getMappedBuffer m.external_memory range.start range.len,
                Call.newEvent])
    else (Outcome.panic, [])
  else (Outcome.panic, [])

/-- `ExternalMemory::map_all`: `let size = self.size as usize;
self.map_range(0..size)`. -/
def ExternalMemory.map_all (windows : Bool) (env : Env) (m : ExternalMemory) :
    Outcome MappedBuffer × List Call :=
  m.map_range windows env ⟨0, m.size⟩

/-- `impl Drop for MappedBuffer`: bind to thread, wait on the view's stream
for the view's event, free the device pointer — each failure recorded, never
raised — and then Rust drops the fields, running the owned
`ExternalMemory`'s teardown. -/
def MappedBuffer.drop (windows : Bool) (env : Env) (b : MappedBuffer) :
    TeardownOut where
  trace := [Call.bindToThread, Call.streamWait b.stream b.event,
      Call.memoryFree b.device_ptr]
    ++ (b.external_memory.drop windows env).trace
  sink := recordErr env.bindToThread ++ recordErr env.streamWait
    ++ recordErr env.memoryFree ++ (b.external_memory.drop windows env).sink

/-- `SyncOnDrop` (a collaborator from `super`): the deferred synchronisation
marker returned alongside a device pointer.  Only the `Record` variant is used
here: `Record (some (event, stream))` later records `event` on `stream`. -/
inductive SyncOnDrop where
  | Record (x : Option (Nat × Nat))
  | Sync (s : Option Nat)
deriving DecidableEq

/-- `impl DevicePtr<u8> for MappedBuffer`: `device_ptr(&self, stream)` returns
the stored device address and `SyncOnDrop::Record(Some((&self.event,
stream)))`.  It takes `&self` (no mutation) and makes no primitive call —
the trace component is always empty: no wait happens at access time. -/
def MappedBuffer.devicePtr (b : MappedBuffer) (stream : Nat) :
    (Nat × SyncOnDrop) × List Call :=
  ((b.device_ptr, SyncOnDrop.Record (some (b.event, stream))), [])

/-!
Ownership semantics of the public API.  `map_range` and `map_all` take
`self: ExternalMemory` by value, so Rust's affine type system guarantees a
well-typed caller gives the handle up when mapping; `import_external_memory`
returns a brand-new handle.  `ApiState` tracks, by identity, which handles
are live and unconsumed and which handles have been moved into a live mapped
view; `ApiStep` has one constructor per API action a well-typed caller can
take, with the handle-consuming signature of `map_range` reflected by both
`mapOk` and `mapFail` removing the handle from the live set.
-/

/-- The live objects of a program using the API: identities of live
unconsumed `ExternalMemory` handles, identities of the handles owned by live
`MappedBuffer` views, and a fresh-identity counter. -/
structure ApiState where
  liveHandles : List Nat
  viewOrigins : List Nat
  nextId : Nat
deriving DecidableEq

/-- One API action by a well-typed caller.  `importOk` creates a fresh
handle; `importFail` creates nothing; `mapOk h` consumes handle `h` (moved
into the new view, per `map_range`'s by-value `self`); `mapFail h` consumes
`h` with no view produced (the moved handle is dropped inside `map_range`);
`dropHandle` drops an unmapped handle; `dropView` drops a view together with
its nested handle. -/
inductive ApiStep : ApiState → ApiState → Prop where
  | importOk (s : ApiState) :
      ApiStep s ⟨s.nextId :: s.liveHandles, s.viewOrigins, s.nextId + 1⟩
  | importFail (s : ApiState) : ApiStep s s
  | mapOk (s : ApiState) (h : Nat) (mem : h ∈ s.liveHandles) :
      ApiStep s ⟨s.liveHandles.erase h, h :: s.viewOrigins, s.nextId⟩
  | mapFail (s : ApiState) (h : Nat) (mem : h ∈ s.liveHandles) :
      ApiStep s ⟨s.liveHandles.erase h, s.viewOrigins, s.nextId⟩
  | dropHandle (s : ApiState) (h : Nat) (mem : h ∈ s.liveHandles) :
      ApiStep s ⟨s.liveHandles.erase h, s.viewOrigins, s.nextId⟩
  | dropView (s : ApiState) (h : Nat) (mem : h ∈ s.viewOrigins) :
      ApiStep s ⟨s.liveHandles, s.viewOrigins.erase h, s.nextId⟩

/-- The initial program state: no handles, no views. -/
def initState : ApiState := ⟨[], [], 0⟩

/-- States a program using the API can reach. -/
inductive Reachable : ApiState → Prop where
  | init : Reachable initState
  | step {s t : ApiState} : Reachable s → ApiStep s t → Reachable t

/-- The ownership invariant: identities are below the freshness counter, no
handle identity occurs twice among live handles or among view origins, and a
live unconsumed handle is not also owned by a view. -/
def Inv (s : ApiState) : Prop :=
  (∀ h ∈ s.liveHandles, h < s.nextId) ∧ (∀ h ∈ s.viewOrigins, h < s.nextId) ∧
    s.liveHandles.Nodup ∧ s.viewOrigins.Nodup ∧
    ∀ h ∈ s.liveHandles, h ∉ s.viewOrigins

/-- Concrete environment in which every primitive succeeds. -/
def envOK : Env where
  bindToThread := Except.ok ()
  importPrim := Except.ok 7
  getMappedBuffer := fun offset _ => Except.ok (4096 + offset)
  newEvent := Except.ok 3
  defaultStream := 1
  destroy := Except.ok ()
  streamWait := Except.ok ()
  memoryFree := Except.ok ()

/-- Concrete environment in which `bind_to_thread` fails. -/
def envBindFail : Env :=
  { envOK with bindToThread := Except.error ⟨100⟩ }

/-- Concrete environment in which the import primitive fails. -/
def envImportFail : Env :=
  { envOK with importPrim := Except.error ⟨101⟩ }

/-- Concrete environment in which `get_mapped_buffer` fails. -/
def envMapFail : Env :=
  { envOK with getMappedBuffer := fun _ _ => Except.error ⟨102⟩ }

/-- Concrete environment in which `new_event` fails. -/
def envEventFail : Env :=
  { envOK with newEvent := Except.error ⟨103⟩ }

/-- A concrete imported handle of size 4096 (as in the spec's scenarios). -/
def emTest : ExternalMemory := ⟨7, 4096, 0, 5⟩

/-- The concrete view `map_all` produces from `emTest` under `envOK`. -/
def bufTest : MappedBuffer := ⟨4096, 4096, emTest, 3, 1⟩

/-! Helper lemmas shared by several claim theorems. -/

/-- The teardown trace of an `ExternalMemory`, spelled out. -/
theorem em_drop_trace (windows : Bool) (env : Env) (m : ExternalMemory) :
    (m.drop windows env).trace =
      [Call.bindToThread, Call.destroyExternalMemory m.external_memory]
        ++ (if windows then [Call.dropFile] else []) := rfl

/-- `ExternalMemory` teardown issues exactly one handle-destroy call. -/
theorem em_drop_count_destroy (windows : Bool) (env : Env)
    (m : ExternalMemory) :
    (m.drop windows env).trace.count
      (Call.destroyExternalMemory m.external_memory) = 1 := by
  cases windows <;>
    simp [ExternalMemory.drop, List.count_cons, List.count_nil]

/-- The ownership invariant holds in every reachable state. -/
theorem reachable_inv {s : ApiState} (h : Reachable s) : Inv s := by
  induction h with
  | init =>
    exact ⟨fun x hx => by simp [initState] at hx,
      fun x hx => by simp [initState] at hx, List.nodup_nil, List.nodup_nil,
      fun x hx => by simp [initState] at hx⟩
  | step hr hstep ih =>
    obtain ⟨hb1, hb2, hn1, hn2, hdisj⟩ := ih
    cases hstep with
    | importOk =>
      refine ⟨?_, ?_, ?_, ?_, ?_⟩
      · intro x hx
        rcases List.mem_cons.mp hx with rfl | hx
        · exact Nat.lt_succ_self _
        · exact Nat.lt_succ_of_lt (hb1 x hx)
      · exact fun x hx => Nat.lt_succ_of_lt (hb2 x hx)
      · exact List.nodup_cons.mpr
          ⟨fun hmem => absurd (hb1 _ hmem) (lt_irrefl _), hn1⟩
      · exact hn2
      · intro x hx
        rcases List.mem_cons.mp hx with rfl | hx
        · exact fun hmem => absurd (hb2 _ hmem) (lt_irrefl _)
        · exact hdisj x hx
    | importFail => exact ⟨hb1, hb2, hn1, hn2, hdisj⟩
    | mapOk a ha =>
      refine ⟨?_, ?_, ?_, ?_, ?_⟩
      · exact fun x hx => hb1 x (List.erase_subset _ _ hx)
      · intro x hx
        rcases List.mem_cons.mp hx with rfl | hx
        · exact hb1 x ha
        · exact hb2 x hx
      · exact hn1.erase a
      · exact List.nodup_cons.mpr ⟨hdisj a ha, hn2⟩
      · intro x hx
        obtain ⟨hne, hx'⟩ := hn1.mem_erase_iff.mp hx
        intro hmem'
        rcases List.mem_cons.mp hmem' with rfl | hmem'
        · exact hne rfl
        · exact hdisj x hx' hmem'
    | mapFail a ha =>
      exact ⟨fun x hx => hb1 x (List.erase_subset _ _ hx), hb2, hn1.erase a,
        hn2, fun x hx => hdisj x (List.erase_subset _ _ hx)⟩
    | dropHandle a ha =>
      exact ⟨fun x hx => hb1 x (List.erase_subset _ _ hx), hb2, hn1.erase a,
        hn2, fun x hx => hdisj x (List.erase_subset _ _ hx)⟩
    | dropView a ha =>
      exact ⟨hb1, fun x hx => hb2 x (List.erase_subset _ _ hx), hn1,
        hn2.erase a,
        fun x hx hmem' => hdisj x hx (List.erase_subset _ _ hmem')⟩

/-! The claim theorems. -/

/-- C1: teardown of a `MappedBuffer` always binds the thread, waits on the
view's stream for the view's event, frees the mapped device memory, and only
then runs the owned `ExternalMemory`'s teardown; in particular a wait occurs
strictly before any free call in the trace, on every scope exit (the `Drop`
impl is the single teardown path Rust runs on normal drop, early return and
unwind alike). -/
theorem mappedBuffer_drop_wait_before_free (windows : Bool) (env : Env)
    (b : MappedBuffer) :
    (b.drop windows env).trace =
        [Call.bindToThread, Call.streamWait b.stream b.event,
          Call.memoryFree b.device_ptr]
          ++ (b.external_memory.drop windows env).trace
      ∧ ∃ l₁ l₂, (b.drop windows env).trace =
            l₁ ++ Call.streamWait b.stream b.event :: l₂
          ∧ Call.memoryFree b.device_ptr ∈ l₂
          ∧ ∀ c ∈ l₁, ∀ p, c ≠ Call.memoryFree p := by
  refine ⟨rfl, [Call.bindToThread],
    Call.memoryFree b.device_ptr :: (b.external_memory.drop windows env).trace,
    rfl, by simp, by simp⟩

/-- C2: if `range.start > size` or `range.end > size`, `map_range` panics
(`assert!` failure), and no primitive is called at all — in particular
`get_mapped_buffer` is never invoked. -/
theorem map_range_out_of_bounds_panics (windows : Bool) (env : Env)
    (m : ExternalMemory) (range : Range)
    (h : m.size < range.start ∨ m.size < range.stop) :
    m.map_range windows env range = (Outcome.panic, []) := by
  unfold ExternalMemory.map_range
  rcases h with h | h
  · rw [if_neg (by omega)]
  · by_cases hs : range.start ≤ m.size
    · rw [if_pos hs, if_neg (by omega)]
    · rw [if_neg hs]

/-- C2 witness: size 4096, requested range `0..8192` (the spec's scenario). -/
theorem map_range_out_of_bounds_panics_witness :
    emTest.size < 8192
      ∧ emTest.map_range false envOK ⟨0, 8192⟩ = (Outcome.panic, []) :=
  ⟨by decide,
    map_range_out_of_bounds_panics false envOK emTest ⟨0, 8192⟩
      (Or.inr (by decide))⟩

/-- C3: `map_all` is exactly `map_range` over `0..size` (same result, same
trace), and a successfully produced view has `len = size`. -/
theorem map_all_eq_map_range (windows : Bool) (env : Env)
    (m : ExternalMemory) (b : MappedBuffer)
    (h : (m.map_all windows env).1 = Outcome.ok b) :
    m.map_all windows env = m.map_range windows env ⟨0, m.size⟩
      ∧ b.len = m.size := by
  refine ⟨rfl, ?_⟩
  unfold ExternalMemory.map_all ExternalMemory.map_range at h
  rw [if_pos (Nat.zero_le _), if_pos (le_refl _)] at h
  cases hg : env.getMappedBuffer 0 (Range.len ⟨0, m.size⟩) with
  | error e => rw [hg] at h; exact absurd h (by simp)
  | ok p =>
    rw [hg] at h
    cases hev : env.newEvent with
    | error e => rw [hev] at h; exact absurd h (by simp)
    | ok ev =>
      rw [hev] at h
      simp only [Outcome.ok.injEq] at h
      rw [← h]
      simp [Range.len]

/-- C3 witness: `map_all` on the 4096-byte test handle under the all-success
environment yields `bufTest`, whose `len` is 4096. -/
theorem map_all_eq_map_range_witness :
    (emTest.map_all false envOK).1 = Outcome.ok bufTest
      ∧ (emTest.map_all false envOK = emTest.map_range false envOK ⟨0, 4096⟩
          ∧ bufTest.len = 4096) :=
  ⟨by decide, map_all_eq_map_range false envOK emTest bufTest (by decide)⟩

/-- C4: `ExternalMemory` teardown destroys the imported-memory handle exactly
once and drops the `File` exactly once on windows and never on unix; the
trace equality shows the file drop, when present, comes after the handle
destroy. -/
theorem externalMemory_drop_destroy_once (windows : Bool) (env : Env)
    (m : ExternalMemory) :
    (m.drop windows env).trace =
        [Call.bindToThread, Call.destroyExternalMemory m.external_memory]
          ++ (if windows then [Call.dropFile] else [])
      ∧ (m.drop windows env).trace.count
          (Call.destroyExternalMemory m.external_memory) = 1
      ∧ (m.drop windows env).trace.count Call.dropFile =
          (if windows then 1 else 0) := by
  refine ⟨em_drop_trace windows env m, em_drop_count_destroy windows env m, ?_⟩
  cases windows <;>
    simp [ExternalMemory.drop, List.count_cons, List.count_nil]

/-- C5: in the ownership semantics of the API — where `map_range`'s by-value
`self` makes every map action consume its handle — every reachable state has
no two live views sharing an origin handle: at most one `MappedBuffer` ever
exists per `ExternalMemory` instance. -/
theorem map_consumes_handle {s : ApiState} (h : Reachable s) :
    s.viewOrigins.Nodup :=
  (reachable_inv h).2.2.2.1

/-- C5 witness: the state after one successful import and one successful map
is reachable, and its single view's origin list is duplicate-free. -/
theorem map_consumes_handle_witness :
    Reachable (⟨[], [0], 1⟩ : ApiState)
      ∧ (⟨[], [0], 1⟩ : ApiState).viewOrigins.Nodup := by
  have h1 : Reachable (⟨[0], [], 1⟩ : ApiState) :=
    Reachable.step Reachable.init (ApiStep.importOk initState)
  have h2 : Reachable (⟨[], [0], 1⟩ : ApiState) :=
    Reachable.step h1 (ApiStep.mapOk ⟨[0], [], 1⟩ 0 (by simp))
  exact ⟨h2, map_consumes_handle h2⟩

/-- C6: when thread binding or the import primitive fails,
`import_external_memory` returns the error, constructs no `ExternalMemory`
(the result is `Except.error`), and the trace is just the calls made so far —
no destroy call, no teardown. -/
theorem import_failure_no_partial_object (env : Env) (ctx file size : Nat)
    (e : DriverError)
    (h : env.bindToThread = Except.error e
      ∨ (env.bindToThread = Except.ok () ∧ env.importPrim = Except.error e)) :
    (CudaContext.import_external_memory env ctx file size).1 = Except.error e
      ∧ ((CudaContext.import_external_memory env ctx file size).2 =
            [Call.bindToThread]
          ∨ (CudaContext.import_external_memory env ctx file size).2 =
            [Call.bindToThread, Call.importPrim file size]) := by
  unfold CudaContext.import_external_memory
  rcases h with h | ⟨hb, hi⟩
  · rw [h]; exact ⟨rfl, Or.inl rfl⟩
  · rw [hb, hi]; exact ⟨rfl, Or.inr rfl⟩

/-- C6 witness: the import-primitive-failure scenario of the spec. -/
theorem import_failure_no_partial_object_witness :
    (CudaContext.import_external_memory envImportFail 0 5 4096).1 =
        Except.error ⟨101⟩
      ∧ ((CudaContext.import_external_memory envImportFail 0 5 4096).2 =
            [Call.bindToThread]
          ∨ (CudaContext.import_external_memory envImportFail 0 5 4096).2 =
            [Call.bindToThread, Call.importPrim 5 4096]) :=
  import_failure_no_partial_object envImportFail 0 5 4096 ⟨101⟩
    (Or.inr ⟨rfl, rfl⟩)

/-- C7: when `get_mapped_buffer` or the subsequent `new_event` fails inside
`map_range`, the error is returned, no view is produced, and the consumed
handle's normal teardown still runs: its destroy call appears exactly once in
the trace. -/
theorem map_range_failure_handle_teardown (windows : Bool) (env : Env)
    (m : ExternalMemory) (range : Range) (e : DriverError)
    (h1 : range.start ≤ m.size) (h2 : range.stop ≤ m.size)
    (h : env.getMappedBuffer range.start range.len = Except.error e
      ∨ ((∃ p, env.getMappedBuffer range.start range.len = Except.ok p)
          ∧ env.newEvent = Except.error e)) :
    (m.map_range windows env range).1 = Outcome.error e
      ∧ (m.map_range windows env range).2.count
          (Call.destroyExternalMemory m.external_memory) = 1 := by
  unfold ExternalMemory.map_range
  rw [if_pos h1, if_pos h2]
  rcases h with h | ⟨⟨p, hp⟩, hev⟩
  · rw [h]
    refine ⟨rfl, ?_⟩
    simp [List.count_append, List.count_cons,
      em_drop_count_destroy windows env m]
  · rw [hp, hev]
    refine ⟨rfl, ?_⟩
    simp [List.count_append, List.count_cons,
      em_drop_count_destroy windows env m]

/-- C7 witness: `get_mapped_buffer` rejects the request; the handle's destroy
call still happens exactly once. -/
theorem map_range_failure_handle_teardown_witness :
    Range.start ⟨0, 4096⟩ ≤ emTest.size
      ∧ ((emTest.map_range false envMapFail ⟨0, 4096⟩).1 =
            Outcome.error ⟨102⟩
          ∧ (emTest.map_range false envMapFail ⟨0, 4096⟩).2.count
              (Call.destroyExternalMemory emTest.external_memory) = 1) :=
  ⟨by decide,
    map_range_failure_handle_teardown false envMapFail emTest ⟨0, 4096⟩ ⟨102⟩
      (by decide) (by decide) (Or.inl rfl)⟩

/-- C8: `device_ptr` returns the view's stored device address unchanged
together with `SyncOnDrop::Record(Some((event, target stream)))`, and makes
no primitive call — no synchronization wait happens at access time (and the
function takes the view immutably: the result is a pure function of the view
and the target stream). -/
theorem device_ptr_read_only (b : MappedBuffer) (stream : Nat) :
    (b.devicePtr stream).1.1 = b.device_ptr
      ∧ (b.devicePtr stream).1.2 =
          SyncOnDrop.Record (some (b.event, stream))
      ∧ (b.devicePtr stream).2 = [] :=
  ⟨rfl, rfl, rfl⟩

/-- C9: destructor-driven teardown of both types never raises (its only
outputs are a call trace and the deferred sink): the trace is independent of
which primitives fail, so every later step is still attempted after an
earlier failure, and the sink receives exactly the errors of the failed
steps, in order. -/
theorem teardown_errors_deferred (windows : Bool) (env env2 : Env)
    (m : ExternalMemory) (b : MappedBuffer) :
    (m.drop windows env).trace = (m.drop windows env2).trace
      ∧ (m.drop windows env).sink =
          recordErr env.bindToThread ++ recordErr env.destroy
      ∧ (b.drop windows env).trace = (b.drop windows env2).trace
      ∧ (b.drop windows env).sink =
          recordErr env.bindToThread ++ recordErr env.streamWait
            ++ recordErr env.memoryFree
            ++ (recordErr env.bindToThread ++ recordErr env.destroy) :=
  ⟨rfl, rfl, rfl, rfl⟩

/-- C10: for a reversed range (`start > end`) whose bounds are within `size`,
both asserts pass (no panic), `get_mapped_buffer` is invoked with offset
`range.start` and length `0` (Rust's `Range::len()` is `0` when
`start >= end`), and a successfully produced view has `len = 0`. -/
theorem map_range_reversed_range_empty (windows : Bool) (env : Env)
    (m : ExternalMemory) (range : Range)
    (h1 : range.stop < range.start) (h2 : range.start ≤ m.size) :
    (m.map_range windows env range).1 ≠ Outcome.panic
      ∧ (m.map_range windows env range).2.head? =
          some (Call.getMappedBuffer m.external_memory range.start 0)
      ∧ ((m.map_range windows env range).1.lenOf = none
          ∨ (m.map_range windows env range).1.lenOf = some 0) := by
  have hlen : range.len = 0 := Nat.sub_eq_zero_of_le h1.le
  unfold ExternalMemory.map_range
  rw [if_pos h2, if_pos (le_trans h1.le h2), hlen]
  cases hg : env.getMappedBuffer range.start 0 with
  | error e => exact ⟨by simp, rfl, Or.inl rfl⟩
  | ok p =>
    cases hev : env.newEvent with
    | error e => exact ⟨by simp, rfl, Or.inl rfl⟩
    | ok ev => exact ⟨by simp, rfl, Or.inr (by simp [Outcome.lenOf, hlen])⟩

/-- C10 witness: the reversed range `8..2` against the 4096-byte handle maps
successfully with length 0. -/
theorem map_range_reversed_range_empty_witness :
    Range.stop ⟨8, 2⟩ < Range.start ⟨8, 2⟩
      ∧ ((emTest.map_range false envOK ⟨8, 2⟩).1 ≠ Outcome.panic
          ∧ (emTest.map_range false envOK ⟨8, 2⟩).2.head? =
              some (Call.getMappedBuffer emTest.external_memory 8 0)
          ∧ ((emTest.map_range false envOK ⟨8, 2⟩).1.lenOf = none
              ∨ (emTest.map_range false envOK ⟨8, 2⟩).1.lenOf = some 0)) :=
  ⟨by decide,
    map_range_reversed_range_empty false envOK emTest ⟨8, 2⟩ (by decide)
      (by decide)⟩

end Cudarc
